import Mathlib

/-!
Verification development for the UCT_MIT_Research_Survey repository.

The Python session store, the ControllingPersonComponent (validate and
serialize), the CSV flattener, the attachment filename generator, the
component registry and the submission error flow are shallowly embedded
below.  Python values reachable in these code paths are modelled by the
inductive type PyVal; the session store is a partial map from string keys to
such values.  Machine-level aspects that no claim touches (Unicode digit
classes beyond ASCII, the str() representation of nested containers) are
noted at the definitions that simplify them.
-/

/-- Model of the Python values that flow through the session store and the
serialized answer payloads: strings, ints, dates, None, lists and
string-keyed dicts (a dict is an insertion-ordered association list, exactly
as Python dicts iterate). -/
inductive PyVal where
  | pstr (s : String)
  | pint (n : Int)
  | pdate (y m d : Nat)
  | pnone
  | plist (xs : List PyVal)
  | pdict (kvs : List (String × PyVal))

/-- The Streamlit session store: a mutable string-keyed dictionary, read
here as a snapshot (absent key: none). -/
def Store : Type := String → Option PyVal

/-- Python truthiness for the modelled values: empty string, zero, None and
empty containers are falsy; dates are always truthy. -/
def pyTruthy : PyVal → Bool
  | .pstr s => !(s == "")
  | .pint n => !(n == 0)
  | .pdate _ _ _ => true
  | .pnone => false
  | .plist xs => !xs.isEmpty
  | .pdict kvs => !kvs.isEmpty

/-- Python str.strip with no argument: drop leading and trailing whitespace.
Python strips the full Unicode whitespace class; the model strips the ASCII
whitespace characters recognised by Char.isWhitespace, which covers every
string any claim exercises. -/
def pyStrip (s : String) : String :=
  (((s.data.dropWhile Char.isWhitespace).reverse.dropWhile Char.isWhitespace).reverse).asString

/-- Python == between a value and a string literal: true exactly when the
value is that string (Python cross-type == is False). -/
def pyEqStr (v : PyVal) (s : String) : Bool :=
  match v with
  | .pstr t => t == s
  | _ => false

/-- Modelled from the spec: app/utils.py is not under src/, only its callers
are.  Spec section 4.1 and 6: inst_key concatenates namespace, instance id
and field suffix with the fixed separator "__". -/
def inst_key (ns instanceId suffix : String) : String :=
  ns ++ "__" ++ instanceId ++ "__" ++ suffix

/-- st.session_state.get(key, default). -/
def getD (store : Store) (k : String) (d : PyVal) : PyVal :=
  (store k).getD d

/-- The idiom (st.session_state.get(key) or "").strip() used by validate on
text fields: an absent key or a stored None or empty string reads as "",
a stored string is stripped.  A stored non-string truthy value would raise
AttributeError in Python; the component only ever stores strings at these
keys, and the model reads such a value as "". -/
def getStrStrip (store : Store) (k : String) : String :=
  match store k with
  | some (.pstr s) => pyStrip s
  | _ => ""

/-- st.session_state.get(count_key, 0) as used for the repeater count.  The
widget layer only stores ints at the count key; a non-int would raise in
Python at the range() call, and the model reads it as 0. -/
def getCount (store : Store) (k : String) : Int :=
  match store k with
  | some (.pint n) => n
  | _ => 0

/-- _postal_ok from app/common_form_sections/controlling_person.py: 4 digits
for South Africa (re.fullmatch of four digit characters; the Python \d class
also admits non-ASCII decimal digits, modelled here as ASCII digits), else
any non-empty string of length at most 10. -/
def _postal_ok (code country : String) : Bool :=
  if pyStrip country == "South Africa" then
    code.length == 4 && code.data.all Char.isDigit
  else
    !(code == "") && code.length ≤ 10

/-- The component config kwargs read by ControllingPersonComponent.validate:
role_label and min_count, with the source defaults. -/
structure Config where
  role_label : String := "Controlling Person"
  min_count : Int := 1

/-- A calendar date as a lexicographic (year, month, day) triple; Python
datetime.date orders exactly this way. -/
def dateGt (a b : Nat × Nat × Nat) : Bool :=
  let (y1, m1, d1) := a
  let (y2, m2, d2) := b
  y1 > y2 || (y1 == y2 && (m1 > m2 || (m1 == m2 && d1 > d2)))

/-- The per-record province check of ControllingPersonComponent.validate
(lines 256-260): Province is required only when the stripped Address Country
equals "South Africa". -/
def cpProvinceErrs (store : Store) (ns instanceId tag : String) (i : Nat) : List String :=
  let address_country := getStrStrip store (inst_key ns instanceId ("address_country_" ++ toString i))
  if address_country == "South Africa" then
    let province := getStrStrip store (inst_key ns instanceId ("province_" ++ toString i))
    if province == "" then [tag ++ " Province is required for South Africa."] else []
  else []

/-- The per-record postal-code check of ControllingPersonComponent.validate
(lines 262-270): required when empty, else _postal_ok with a country-specific
message. -/
def cpPostalErrs (store : Store) (ns instanceId tag : String) (i : Nat) : List String :=
  let address_country := getStrStrip store (inst_key ns instanceId ("address_country_" ++ toString i))
  let postal_code := getStrStrip store (inst_key ns instanceId ("postal_code_" ++ toString i))
  if postal_code == "" then [tag ++ " Postal Code is required."]
  else if !(_postal_ok postal_code address_country) then
    if address_country == "South Africa" then
      [tag ++ " Postal Code must be exactly 4 digits for South Africa."]
    else [tag ++ " Postal Code is invalid."]
  else []

/-- The loop body of ControllingPersonComponent.validate for record i
(0-based), emitting errors in source order.  minDate models the value of
datetime.date.today() minus 18 times 365 days computed at call time. -/
def cpValidatePerson (store : Store) (ns instanceId role_label : String)
    (minDate : Nat × Nat × Nat) (i : Nat) : List String :=
  let tag := "[" ++ role_label ++ " #" ++ toString (i + 1) ++ "]"
  let first_name := getStrStrip store (inst_key ns instanceId ("first_name_" ++ toString i))
  let e1 := if first_name == "" then [tag ++ " First Name is required."] else []
  let last_name := getStrStrip store (inst_key ns instanceId ("last_name_" ++ toString i))
  let e2 := if last_name == "" then [tag ++ " Last Name is required."] else []
  let e3 :=
    match store (inst_key ns instanceId ("date_of_birth_" ++ toString i)) with
    | none => [tag ++ " Date of Birth is required."]
    | some v =>
      if !(pyTruthy v) then [tag ++ " Date of Birth is required."]
      else
        match v with
        | .pdate y m d =>
          if dateGt (y, m, d) minDate then [tag ++ " Must be at least 18 years old."] else []
        | _ => []
  let birth_country := getStrStrip store (inst_key ns instanceId ("birth_country_" ++ toString i))
  let e4 := if birth_country == "" then [tag ++ " Country of Birth is required."] else []
  let member_role := getStrStrip store (inst_key ns instanceId ("member_role_" ++ toString i))
  let e5 := if member_role == "" then [tag ++ " Role/Designation is required."] else []
  let tax_residence := getStrStrip store (inst_key ns instanceId ("tax_residence_country_" ++ toString i))
  let e6 := if tax_residence == "" then [tag ++ " Country of Tax Residence is required."] else []
  let tin_option := getD store (inst_key ns instanceId ("tin_option_" ++ toString i)) (.pstr "")
  let e7 :=
    if !(pyTruthy tin_option) then [tag ++ " TIN Option is required."]
    else if pyEqStr tin_option "HAS_TIN" then
      let tin := getStrStrip store (inst_key ns instanceId ("controlling_person_tin_" ++ toString i))
      if tin == "" then
        [tag ++ " Controlling Person TIN is required when TIN Option is 'Has TIN'."]
      else []
    else []
  let street_name := getStrStrip store (inst_key ns instanceId ("street_name_" ++ toString i))
  let e8 := if street_name == "" then [tag ++ " Street Name is required."] else []
  let suburb := getStrStrip store (inst_key ns instanceId ("suburb_" ++ toString i))
  let e9 := if suburb == "" then [tag ++ " Suburb is required."] else []
  let city := getStrStrip store (inst_key ns instanceId ("city_" ++ toString i))
  let e10 := if city == "" then [tag ++ " City is required."] else []
  let address_country := getStrStrip store (inst_key ns instanceId ("address_country_" ++ toString i))
  let e11 := if address_country == "" then [tag ++ " Address Country is required."] else []
  let e12 := cpProvinceErrs store ns instanceId tag i
  let e13 := cpPostalErrs store ns instanceId tag i
  e1 ++ e2 ++ e3 ++ e4 ++ e5 ++ e6 ++ e7 ++ e8 ++ e9 ++ e10 ++ e11 ++ e12 ++ e13

/-- ControllingPersonComponent.validate.  devMode models the value of
is_dev_mode() from app/utils.py (not under src/; spec section 4.2: a
process-wide development-mode flag; an ImportError reads as false). -/
def cpValidate (devMode : Bool) (minDate : Nat × Nat × Nat) (store : Store)
    (ns instanceId : String) (cfg : Config) : List String :=
  if devMode then []
  else
    let n := getCount store (inst_key ns instanceId "count")
    let countErrs :=
      if n < cfg.min_count then
        let word := if cfg.min_count == 1 then "y" else "ies"
        ["[" ++ cfg.role_label ++ "s] At least " ++ toString cfg.min_count ++
          " entr" ++ word ++ " required."]
      else []
    countErrs ++ (List.range n.toNat).flatMap (cpValidatePerson store ns instanceId cfg.role_label minDate)

/-- Zero-pad a natural number to at least w digits. -/
def padNat (w n : Nat) : String :=
  let s := toString n
  if s.length < w then String.mk (List.replicate (w - s.length) '0') ++ s else s

/-- strftime of a date with format year/month/day, zero-padded as glibc
renders it. -/
def strftimeYMD (y m d : Nat) : String :=
  padNat 4 y ++ "/" ++ padNat 2 m ++ "/" ++ padNat 2 d

/-- The loop body of ControllingPersonComponent.serialize for record i:
seventeen fields in source order; a missing or falsy date serializes as ""
(the except branch of the safe date formatting never fires for an actual
date, so dates always format); Province/State collapses to "Other" for every
Address Country other than the exact string "South Africa". -/
def cpSerializePerson (store : Store) (ns instanceId : String) (i : Nat) :
    List (String × PyVal) :=
  let dob_str :=
    match store (inst_key ns instanceId ("date_of_birth_" ++ toString i)) with
    | some (.pdate y m d) => strftimeYMD y m d
    | _ => ""
  let address_country := getD store (inst_key ns instanceId ("address_country_" ++ toString i)) (.pstr "")
  [("First Name", getD store (inst_key ns instanceId ("first_name_" ++ toString i)) (.pstr "")),
   ("Last Name", getD store (inst_key ns instanceId ("last_name_" ++ toString i)) (.pstr "")),
   ("Date of Birth", .pstr dob_str),
   ("Country of Birth", getD store (inst_key ns instanceId ("birth_country_" ++ toString i)) (.pstr "")),
   ("Role/Designation", getD store (inst_key ns instanceId ("member_role_" ++ toString i)) (.pstr "")),
   ("Country of Tax Residence", getD store (inst_key ns instanceId ("tax_residence_country_" ++ toString i)) (.pstr "")),
   ("TIN Option", getD store (inst_key ns instanceId ("tin_option_" ++ toString i)) (.pstr "")),
   ("Controlling Person TIN", getD store (inst_key ns instanceId ("controlling_person_tin_" ++ toString i)) (.pstr "")),
   ("Street Number", getD store (inst_key ns instanceId ("street_number_" ++ toString i)) (.pstr "")),
   ("Unit Number", getD store (inst_key ns instanceId ("unit_number_" ++ toString i)) (.pstr "")),
   ("Complex Name", getD store (inst_key ns instanceId ("complex_name_" ++ toString i)) (.pstr "")),
   ("Street Name", getD store (inst_key ns instanceId ("street_name_" ++ toString i)) (.pstr "")),
   ("Suburb", getD store (inst_key ns instanceId ("suburb_" ++ toString i)) (.pstr "")),
   ("City", getD store (inst_key ns instanceId ("city_" ++ toString i)) (.pstr "")),
   ("Address Country", address_country),
   ("Postal Code", getD store (inst_key ns instanceId ("postal_code_" ++ toString i)) (.pstr "")),
   ("Province/State",
     if pyEqStr address_country "South Africa" then
       getD store (inst_key ns instanceId ("province_" ++ toString i)) (.pstr "")
     else .pstr "Other")]

/-- ControllingPersonComponent.serialize: the payload is a dict with keys
Count and Records, Records holding one dict per record; the uploads list is
always empty.  The config kwargs are not read by serialize. -/
def cpSerialize (store : Store) (ns instanceId : String) (_cfg : Config) :
    PyVal × List PyVal :=
  let n := getCount store (inst_key ns instanceId "count")
  let people := (List.range n.toNat).map (fun i => PyVal.pdict (cpSerializePerson store ns instanceId i))
  (PyVal.pdict [("Count", PyVal.pint n), ("Records", PyVal.plist people)], [])

/-- A session-store snapshot built from an association list of key-value
pairs (first binding wins, as keys are distinct in every use). -/
def storeOf (kvs : List (String × PyVal)) : Store :=
  fun k => (kvs.find? (fun kv => kv.1 == k)).map (fun kv => kv.2)

/-- The everywhere-absent session store. -/
def emptyStore : Store := fun _ => none

example : cpSerialize emptyStore "f" "cp" {} =
    (PyVal.pdict [("Count", PyVal.pint 0), ("Records", PyVal.plist [])], []) := rfl

example : cpValidate true (2008, 10, 12) emptyStore "f" "cp" {} = [] := rfl

example : cpValidate false (2008, 10, 12) emptyStore "f" "cp" {} =
    ["[Controlling Persons] At least 1 entry required."] := rfl

/-! ## CSV generator (app/csv_generator.py) -/

/-- str() on the modelled Python leaves.  The str() representation of nested
containers is never produced by the serializers and is not exercised by any
claim; it is modelled as "". -/
def pyStr : PyVal → String
  | .pstr s => s
  | .pint n => toString n
  | .pdate y m d => padNat 4 y ++ "-" ++ padNat 2 m ++ "-" ++ padNat 2 d
  | .pnone => "None"
  | .plist _ => ""
  | .pdict _ => ""

/-- The cell text written by _flatten_data for a field value:
str(value) if value is not None else "". -/
def cellStr : PyVal → String
  | .pnone => ""
  | v => pyStr v

/-- Python key lookup in a dict modelled as an ordered association list. -/
def lookupKey (kvs : List (String × PyVal)) (k : String) : Option PyVal :=
  (kvs.find? (fun kv => kv.1 == k)).map (fun kv => kv.2)

/-- One flattened CSV row: Section, Record number, Field, Value.  The Value
of the zero-record marker row is the int 0; every other Value is a string. -/
structure FlatRow where
  sectionName : String
  recordNo : Int
  field : String
  value : PyVal

/-- The body of _flatten_data for one top-level payload entry:
non-dict values file under Submission Details; a dict whose Records key
holds a list is a repeater (zero records emit the single Count marker row,
non-dict records emit nothing); every other dict is flat, with a field
literally named Records skipped. -/
def flattenSection (section_title : String) (section_data : PyVal) : List FlatRow :=
  match section_data with
  | .pdict kvs =>
    match lookupKey kvs "Records" with
    | some (.plist records) =>
      if records.isEmpty then
        [⟨section_title, 0, "Count", .pint 0⟩]
      else
        records.enum.flatMap (fun p =>
          match p.2 with
          | .pdict rkvs =>
            rkvs.map (fun fv => ⟨section_title, Int.ofNat p.1 + 1, fv.1, .pstr (cellStr fv.2)⟩)
          | _ => [])
    | _ =>
      (kvs.filter (fun kv => !(kv.1 == "Records"))).map
        (fun kv => ⟨section_title, 1, kv.1, .pstr (cellStr kv.2)⟩)
  | v => [⟨"Submission Details", 1, section_title, .pstr (cellStr v)⟩]

/-- _flatten_data over the whole payload (a top-level dict, iterated in
insertion order). -/
def flattenData (payload : List (String × PyVal)) : List FlatRow :=
  payload.flatMap (fun kv => flattenSection kv.1 kv.2)

/-- csv.QUOTE_MINIMAL field escaping: quote when the field contains the
delimiter, the quote character or a line break, doubling inner quotes. -/
def csvField (s : String) : String :=
  if s.data.any (fun c => c == ',' || c == '"' || c == '\r' || c == '\n') then
    "\"" ++ (s.data.flatMap (fun c => if c == '"' then ['"', '"'] else [c])).asString ++ "\""
  else s

/-- One DictWriter data line in header order; the int Record number is
rendered with str(). -/
def rowLine (r : FlatRow) : String :=
  csvField r.sectionName ++ "," ++ csvField (toString r.recordNo) ++ "," ++
    csvField r.field ++ "," ++ csvField (pyStr r.value)

/-- make_csv: header plus one line per flattened row, with the csv module
line terminator CRLF; the empty-data early return writes the header with a
bare newline exactly as the source does. -/
def makeCsv (payload : List (String × PyVal)) : String :=
  let flat := flattenData payload
  if flat.isEmpty then "Section,Record #,Field,Value\n"
  else
    "Section,Record #,Field,Value\r\n" ++
      String.join (flat.map (fun r => rowLine r ++ "\r\n"))

/-! ## Attachment filenames (app/attachment_metadata.py) -/

/-- The character class kept by the first regex of _sanitize_filename_part:
ASCII letters and digits, underscore, whitespace and hyphen. -/
def keepChar (c : Char) : Bool :=
  c.isAlpha || c.isDigit || c == '_' || c.isWhitespace || c == '-'

def isWsOrHyphen (c : Char) : Bool := c.isWhitespace || c == '-'

/-- re.sub of one-or-more runs of the class p by the single character rep:
the Boolean argument records whether the previous character was inside a
run. -/
def subRunsAux (p : Char → Bool) (rep : Char) : Bool → List Char → List Char
  | _, [] => []
  | inRun, c :: cs =>
    if p c then
      if inRun then subRunsAux p rep true cs
      else rep :: subRunsAux p rep true cs
    else c :: subRunsAux p rep false cs

def subRuns (p : Char → Bool) (rep : Char) (l : List Char) : List Char :=
  subRunsAux p rep false l

/-- str.strip with an explicit character argument: drop that character from
both ends. -/
def stripChar (c : Char) (l : List Char) : List Char :=
  ((l.dropWhile (fun d => d == c)).reverse.dropWhile (fun d => d == c)).reverse

/-- AttachmentMetadata._sanitize_filename_part: drop characters outside the
kept class, replace runs of whitespace or hyphens by one underscore,
collapse runs of underscores, strip outer underscores. -/
def _sanitize_filename_part (text : String) : String :=
  if text == "" then ""
  else
    let s1 := text.data.filter keepChar
    let s2 := subRuns isWsOrHyphen '_' s1
    let s3 := subRuns (fun c => c == '_') '_' s2
    (stripChar '_' s3).asString

/-- The extension rule of generate_filename: the lowercased text after the
last dot of the original name, or bin when the name has no dot. -/
def extOf (original_name : String) : String :=
  if original_name.data.contains '.' then
    ((original_name.data.reverse.takeWhile (fun c => !(c == '.'))).reverse.map Char.toLower).asString
  else "bin"

/-- str.rstrip with the underscore argument. -/
def rstripUnderscore (l : List Char) : List Char :=
  (l.reverse.dropWhile (fun c => c == '_')).reverse

/-- Python str.join over a separator. -/
def pyJoin (sep : String) : List String → String
  | [] => ""
  | [a] => a
  | a :: rest => a ++ sep ++ pyJoin sep rest

/-- AttachmentMetadata.generate_filename: sanitize and join the truthy
components in order, fall back to Document when the joined base is empty,
truncate the base to 200 characters (then strip trailing underscores), and
append the extension. -/
def generate_filename (entity_context section_title person_identifier document_type
    original_name : String) : String :=
  let parts :=
    (if !(entity_context == "") then [_sanitize_filename_part entity_context] else []) ++
    (if !(section_title == "") then [_sanitize_filename_part section_title] else []) ++
    (if !(person_identifier == "") then [_sanitize_filename_part person_identifier] else []) ++
    (if !(document_type == "") then [_sanitize_filename_part document_type] else [])
  let extension := extOf original_name
  let filename_base := pyJoin "_" (parts.filter (fun p => !(p == "")))
  let filename_base := if filename_base == "" then "Document" else filename_base
  let filename_base :=
    if filename_base.length > 200 then (rstripUnderscore (filename_base.data.take 200)).asString
    else filename_base
  filename_base ++ "." ++ extension

example : generate_filename "Acme Corp_Company" "Company Directors"
    "John_Smith_Director_1" "SA_ID_Document" "scan.pdf" =
    "Acme_Corp_Company_Company_Directors_John_Smith_Director_1_SA_ID_Document.pdf" := rfl

example : makeCsv [("Entity Details", .pdict [("Entity Name", .pstr "Acme")])] =
    "Section,Record #,Field,Value\r\nEntity Details,1,Entity Name,Acme\r\n" := rfl

/-! ## Component registry (app/common_form_sections/__init__.py)

Defensive copying is a statement about object identity, so Python dict
objects are modelled in a small heap: a list of dictionaries indexed by
reference.  The module-level _REGISTRY dict lives at one reference;
get_component_registry (the _REGISTRY.copy() call) allocates a fresh
reference holding the same entries. -/

/-- A Python dict, insertion ordered. -/
abbrev Dict (α : Type) : Type := List (String × α)

/-- Heap of dict objects; a reference is an index into the cell list. -/
structure Heap (α : Type) where
  cells : List (Dict α)

/-- Python dict item assignment: overwrite in place when the key exists
(keeping its position), else append. -/
def dictSet (d : Dict α) (k : String) (v : α) : Dict α :=
  if (List.any d (fun kv => kv.1 == k)) then
    List.map (fun kv => if kv.1 == k then (k, v) else kv) d
  else d ++ [(k, v)]

/-- Python del d[k] (a no-op here when the key is absent; only ever applied
by the caller mutating its copy, where the distinction does not matter). -/
def dictDel (d : Dict α) (k : String) : Dict α :=
  List.filter (fun kv => !(kv.1 == k)) d

/-- Python d.get(k). -/
def dictGet (d : Dict α) (k : String) : Option α :=
  (List.find? (fun kv => kv.1 == k) d).map (fun kv => kv.2)

def heapGetDict (h : Heap α) (r : Nat) : Dict α := h.cells.getD r []

def heapSetDict (h : Heap α) (r : Nat) (d : Dict α) : Heap α := ⟨h.cells.set r d⟩

/-- register_component: mutate the registry dict (at reference regRef) in
place. -/
def register_component (h : Heap α) (regRef : Nat) (name : String) (comp : α) : Heap α :=
  heapSetDict h regRef (dictSet (heapGetDict h regRef) name comp)

/-- get_component: _REGISTRY.get(name). -/
def get_component (h : Heap α) (regRef : Nat) (name : String) : Option α :=
  dictGet (heapGetDict h regRef) name

/-- get_component_registry: _REGISTRY.copy() allocates a fresh dict object
with the same entries and returns its reference. -/
def get_component_registry (h : Heap α) (regRef : Nat) : Heap α × Nat :=
  (⟨h.cells ++ [heapGetDict h regRef]⟩, h.cells.length)

/-- A mutation a caller can apply to the mapping it was handed: add,
replace or remove an entry. -/
inductive DictOp (α : Type) where
  | set (k : String) (v : α)
  | del (k : String)

def applyOp (h : Heap α) (r : Nat) : DictOp α → Heap α
  | .set k v => heapSetDict h r (dictSet (heapGetDict h r) k v)
  | .del k => heapSetDict h r (dictDel (heapGetDict h r) k)

def applyOps (h : Heap α) (r : Nat) (ops : List (DictOp α)) : Heap α :=
  ops.foldl (fun h op => applyOp h r op) h

/-- The process-start state: one empty registry dict at reference 0. -/
def initHeap (α : Type) : Heap α := ⟨[[]]⟩

/-- A heap built by a sequence of register_component calls against the
registry at reference 0, mirroring the side-effecting imports at process
start. -/
def registerAll (α : Type) (regs : List (String × α)) : Heap α :=
  regs.foldl (fun h p => register_component h 0 p.1 p.2) (initHeap α)

/-! ## Submission error flow (app/components/submission.py and
app/email_sender.py)

The fallible external collaborators (make_pdf, the SMTP transport, make_csv)
are modelled as Except-valued oracles; handle_submission and
send_submission_email are embedded as the pure functions of those outcomes
that the try/except structure of the source computes. -/

/-- What handle_submission leaves the user with. -/
structure SubmissionOutcome (Pdf Csv : Type) where
  /-- False exactly when st.stop() aborted at the declaration gate. -/
  completed : Bool
  /-- Warnings shown for collaborator failures. -/
  warnings : List String
  /-- The PDF bytes offered for download (none when make_pdf raised). -/
  pdfArtifact : Option Pdf
  /-- The CSV text offered for download (none when make_csv raised). -/
  csvArtifact : Option Csv

/-- handle_submission, abstracted over the outcomes of its fallible calls:
the declaration gate, then make_pdf in a try/except that downgrades to a
warning, then send_submission_email in a try/except that downgrades to a
warning, then CSV generation in a try/except that swallows, then the
download section (offering whichever artifacts exist). -/
def handle_submission (Pdf Csv : Type) (accept : Bool)
    (pdfGen : Except String Pdf) (emailSend : Except String Unit)
    (csvGen : Except String Csv) : SubmissionOutcome Pdf Csv :=
  if !accept then
    { completed := false, warnings := [], pdfArtifact := none, csvArtifact := none }
  else
    let (pdf_bytes, pdfWarnings) :=
      match pdfGen with
      | .ok b => (some b, [])
      | .error e => (none, ["PDF generation encountered an issue: " ++ e])
    let emailWarnings :=
      match emailSend with
      | .ok _ => []
      | .error e => ["Email sending encountered an issue: " ++ e,
                     "You can still download your submission below."]
    let csv_string :=
      match csvGen with
      | .ok s => some s
      | .error _ => none
    { completed := true, warnings := pdfWarnings ++ emailWarnings,
      pdfArtifact := pdf_bytes, csvArtifact := csv_string }

/-- What send_submission_email did. -/
structure EmailAttempt where
  /-- True when server.send_message ran without raising. -/
  sent : Bool
  /-- The PDF summary was attached. -/
  pdfAttached : Bool
  /-- The CSV data file was attached. -/
  csvAttached : Bool
  /-- Number of user uploads attached (the non-None entries). -/
  uploadsAttached : Nat
  /-- Error messages surfaced to the UI. -/
  errors : List String

/-- send_submission_email, abstracted over its fallible steps: missing
credentials return early; a make_pdf failure inside its inner try/except is
reported and the message is still assembled without the PDF part; a CSV
failure is silently skipped; every non-None upload is attached; the outer
try/except turns a transport failure into error messages instead of a
raise. -/
def send_submission_email (Pdf Csv Upload : Type)
    (creds : Option (String × String)) (pdfGen : Except String Pdf)
    (csvGen : Except String Csv) (uploaded_files : List (Option Upload))
    (transport : Except String Unit) : EmailAttempt :=
  match creds with
  | none =>
    { sent := false, pdfAttached := false, csvAttached := false, uploadsAttached := 0,
      errors := ["Missing email credentials in secrets.toml"] }
  | some _ =>
    let (pdfAttached, pdfErrors) :=
      match pdfGen with
      | .ok _ => (true, [])
      | .error e => (false, ["Could not generate PDF: " ++ e])
    let csvAttached :=
      match csvGen with
      | .ok _ => true
      | .error _ => false
    let nUploads := (uploaded_files.filter (fun f => f.isSome)).length
    match transport with
    | .ok _ =>
      { sent := true, pdfAttached := pdfAttached, csvAttached := csvAttached,
        uploadsAttached := nUploads, errors := pdfErrors }
    | .error e =>
      { sent := false, pdfAttached := pdfAttached, csvAttached := csvAttached,
        uploadsAttached := nUploads,
        errors := pdfErrors ++ ["Failed to send survey submission email: " ++ e,
          "Please check your email configuration in .streamlit/secrets.toml and try again."] }

/-! ## Auxiliary definitions used by the statements -/

/-- pat is a character-wise start of s. -/
def hasPre (pat s : List Char) : Bool :=
  match pat, s with
  | [], _ => true
  | _ :: _, [] => false
  | p :: ps, c :: cs => p == c && hasPre ps cs

def listMentions (pat : List Char) : List Char → Bool
  | [] => hasPre pat []
  | c :: cs => hasPre pat (c :: cs) || listMentions pat (cs)

/-- The substring pat occurs somewhere in s. -/
def mentions (pat s : String) : Bool :=
  listMentions pat.data s.data

/-- Two equal adjacent occurrences of the character rep. -/
def hasAdjRep (rep : Char) : List Char → Bool
  | a :: b :: t => (a == rep && b == rep) || hasAdjRep rep (b :: t)
  | _ => false

/-- The field keys of one serialized controlling-person record, in payload
order. -/
def cpFieldKeys : List String :=
  ["First Name", "Last Name", "Date of Birth", "Country of Birth",
   "Role/Designation", "Country of Tax Residence", "TIN Option",
   "Controlling Person TIN", "Street Number", "Unit Number", "Complex Name",
   "Street Name", "Suburb", "City", "Address Country", "Postal Code",
   "Province/State"]

/-- The record fields that serialize reads directly from the session store
(field key paired with the key suffix stem, including the trailing
underscore before the record index), i.e. all of them except the computed
Province/State. -/
def cpDirectFields : List (String × String) :=
  [("First Name", "first_name_"), ("Last Name", "last_name_"),
   ("Date of Birth", "date_of_birth_"), ("Country of Birth", "birth_country_"),
   ("Role/Designation", "member_role_"),
   ("Country of Tax Residence", "tax_residence_country_"),
   ("TIN Option", "tin_option_"),
   ("Controlling Person TIN", "controlling_person_tin_"),
   ("Street Number", "street_number_"), ("Unit Number", "unit_number_"),
   ("Complex Name", "complex_name_"), ("Street Name", "street_name_"),
   ("Suburb", "suburb_"), ("City", "city_"),
   ("Address Country", "address_country_"), ("Postal Code", "postal_code_")]

/-- A store holding one fully filled controlling-person record under
namespace f and instance id cp, with the address country, province and
postal code as given: the vehicle for the spec test vector of the
country-conditional rules. -/
def cpTestStore (country province postal : String) : Store :=
  storeOf
    [(inst_key "f" "cp" "count", .pint 1),
     (inst_key "f" "cp" "first_name_0", .pstr "John"),
     (inst_key "f" "cp" "last_name_0", .pstr "Smith"),
     (inst_key "f" "cp" "date_of_birth_0", .pdate 1980 1 1),
     (inst_key "f" "cp" "birth_country_0", .pstr "South Africa"),
     (inst_key "f" "cp" "member_role_0", .pstr "Director"),
     (inst_key "f" "cp" "tax_residence_country_0", .pstr "South Africa"),
     (inst_key "f" "cp" "tin_option_0", .pstr "NO_TIN_PROVIDED"),
     (inst_key "f" "cp" "street_name_0", .pstr "Main Road"),
     (inst_key "f" "cp" "suburb_0", .pstr "Rondebosch"),
     (inst_key "f" "cp" "city_0", .pstr "Cape Town"),
     (inst_key "f" "cp" "address_country_0", .pstr country),
     (inst_key "f" "cp" "province_0", .pstr province),
     (inst_key "f" "cp" "postal_code_0", .pstr postal)]

/-- The minimum-date parameter used by the concrete validate runs (every
record in them was born in 1980, far before any plausible value of
today minus 18 years). -/
def cpMinDate : Nat × Nat × Nat := (2008, 10, 12)

/-- A repeater record with k distinct fields, for the CSV shape property. -/
def mkCsvRecord (k : Nat) : PyVal :=
  .pdict ((List.range k).map (fun j => ("F" ++ toString j, PyVal.pstr "v")))

/-- A payload with one plain one-field section and one repeater section
holding two records of k fields each. -/
def mkCsvPayload (k : Nat) : List (String × PyVal) :=
  [("Entity Details", .pdict [("Entity Name", .pstr "Acme")]),
   ("Directors", .pdict [("Count", .pint 2),
      ("Records", .plist [mkCsvRecord k, mkCsvRecord k])])]

/-! ## Claim theorems -/

/-- C1: for every namespace, instance id and config, when the count key of a
ControllingPersonComponent instance holds 0 or is absent, serialize returns
the payload with Count bound to 0 and Records present and bound to the empty
list, together with an empty uploads list. -/
theorem cp_serialize_zero_count (store : Store) (ns instanceId : String) (cfg : Config)
    (h : store (inst_key ns instanceId "count") = some (PyVal.pint 0) ∨
         store (inst_key ns instanceId "count") = none) :
    cpSerialize store ns instanceId cfg =
      (PyVal.pdict [("Count", PyVal.pint 0), ("Records", PyVal.plist [])], []) := by
  rcases h with h | h <;> simp [cpSerialize, getCount, h]

theorem cp_serialize_zero_count_witness :
    cpSerialize emptyStore "f" "cp" {} =
      (PyVal.pdict [("Count", PyVal.pint 0), ("Records", PyVal.plist [])], []) :=
  cp_serialize_zero_count emptyStore "f" "cp" {} (Or.inr rfl)

/-- C3: with the development-mode flag set, ControllingPersonComponent.validate
returns the empty error list for every session store, namespace, instance id
and config. -/
theorem cp_validate_dev_mode_bypass (minDate : Nat × Nat × Nat) (store : Store)
    (ns instanceId : String) (cfg : Config) :
    cpValidate true minDate store ns instanceId cfg = [] := rfl

/-- C10: outside development mode, with the default min_count of 1, a
controlling-person instance whose count key is 0 or absent never validates
cleanly, even though it serializes to the zero-count payload with an empty
Records list. -/
theorem cp_zero_count_never_validates (minDate : Nat × Nat × Nat) (store : Store)
    (ns instanceId : String) (cfg : Config) (hmin : cfg.min_count = 1)
    (h : store (inst_key ns instanceId "count") = some (PyVal.pint 0) ∨
         store (inst_key ns instanceId "count") = none) :
    cpValidate false minDate store ns instanceId cfg ≠ [] ∧
    (cpSerialize store ns instanceId cfg).1 =
      PyVal.pdict [("Count", PyVal.pint 0), ("Records", PyVal.plist [])] := by
  constructor
  · rcases h with h | h <;> simp [cpValidate, getCount, h, hmin]
  · rcases h with h | h <;> simp [cpSerialize, getCount, h]

theorem cp_zero_count_never_validates_witness :
    cpValidate false cpMinDate emptyStore "f" "cp" {} ≠ [] ∧
    (cpSerialize emptyStore "f" "cp" {}).1 =
      PyVal.pdict [("Count", PyVal.pint 0), ("Records", PyVal.plist [])] :=
  cp_zero_count_never_validates cpMinDate emptyStore "f" "cp" {} rfl (Or.inr rfl)

/-- C9: collaborator failures never abort the submission flow.  With the
declaration accepted, handle_submission always completes; the CSV artifact
is offered whenever CSV generation succeeds and the PDF artifact whenever
PDF generation succeeds, independently of the other failures; a make_pdf or
email failure is downgraded to a warning naming it; and inside
send_submission_email a PDF-generation failure still leaves the email
assembled and sent, without the PDF attachment but with the CSV and the
uploads. -/
theorem submission_collaborator_failures_nonfatal (Pdf Csv Upload : Type)
    (pdfGen : Except String Pdf) (emailSend : Except String Unit)
    (csvGen : Except String Csv) (creds : String × String)
    (uploaded_files : List (Option Upload)) (e : String) :
    ((handle_submission Pdf Csv true pdfGen emailSend csvGen).completed = true) ∧
    ((handle_submission Pdf Csv true pdfGen emailSend csvGen).csvArtifact = csvGen.toOption) ∧
    ((handle_submission Pdf Csv true pdfGen emailSend csvGen).pdfArtifact = pdfGen.toOption) ∧
    (pdfGen = .error e →
      "PDF generation encountered an issue: " ++ e ∈
        (handle_submission Pdf Csv true pdfGen emailSend csvGen).warnings) ∧
    (emailSend = .error e →
      "Email sending encountered an issue: " ++ e ∈
        (handle_submission Pdf Csv true pdfGen emailSend csvGen).warnings) ∧
    ((send_submission_email Pdf Csv Upload (some creds) (.error e) csvGen
        uploaded_files (.ok ())).sent = true) ∧
    ((send_submission_email Pdf Csv Upload (some creds) (.error e) csvGen
        uploaded_files (.ok ())).pdfAttached = false) ∧
    ((send_submission_email Pdf Csv Upload (some creds) (.error e) csvGen
        uploaded_files (.ok ())).csvAttached = csvGen.isOk) ∧
    ((send_submission_email Pdf Csv Upload (some creds) (.error e) csvGen
        uploaded_files (.ok ())).uploadsAttached =
      (uploaded_files.filter (fun f => f.isSome)).length) := by
  refine ⟨?_, ?_, ?_, ?_, ?_, ?_, ?_, ?_, ?_⟩
  · cases pdfGen <;> cases emailSend <;> cases csvGen <;> simp [handle_submission]
  · cases pdfGen <;> cases emailSend <;> cases csvGen <;>
      simp [handle_submission, Except.toOption]
  · cases pdfGen <;> cases emailSend <;> cases csvGen <;>
      simp [handle_submission, Except.toOption]
  · rintro rfl
    cases emailSend <;> cases csvGen <;> simp [handle_submission]
  · rintro rfl
    cases pdfGen <;> cases csvGen <;> simp [handle_submission]
  · cases csvGen <;> simp [send_submission_email]
  · cases csvGen <;> simp [send_submission_email]
  · cases csvGen <;> simp [send_submission_email, Except.isOk, Except.toBool]
  · cases csvGen <;> simp [send_submission_email]

theorem submission_collaborator_failures_nonfatal_witness :
    ((handle_submission Unit Unit true (.error "boom") (.error "boom")
        (.ok ())).completed = true) ∧
    ((handle_submission Unit Unit true (.error "boom") (.error "boom")
        (.ok ())).csvArtifact = (Except.ok (ε := String) ()).toOption) ∧
    ((handle_submission Unit Unit true (.error "boom") (.error "boom")
        (.ok ())).pdfArtifact = (Except.error (α := Unit) "boom").toOption) ∧
    ((Except.error (α := Unit) "boom") = .error "boom" →
      "PDF generation encountered an issue: " ++ "boom" ∈
        (handle_submission Unit Unit true (.error "boom") (.error "boom")
          (.ok ())).warnings) ∧
    ((Except.error (α := Unit) "boom") = Except.error "boom" →
      "Email sending encountered an issue: " ++ "boom" ∈
        (handle_submission Unit Unit true (.error "boom") (.error "boom")
          (.ok ())).warnings) ∧
    ((send_submission_email Unit Unit Unit (some ("a", "b")) (.error "boom") (.ok ())
        [some (), none] (.ok ())).sent = true) ∧
    ((send_submission_email Unit Unit Unit (some ("a", "b")) (.error "boom") (.ok ())
        [some (), none] (.ok ())).pdfAttached = false) ∧
    ((send_submission_email Unit Unit Unit (some ("a", "b")) (.error "boom") (.ok ())
        [some (), none] (.ok ())).csvAttached = (Except.ok (ε := String) ()).isOk) ∧
    ((send_submission_email Unit Unit Unit (some ("a", "b")) (.error "boom") (.ok ())
        [some (), none] (.ok ())).uploadsAttached =
      (([some (), none] : List (Option Unit)).filter (fun f => f.isSome)).length) :=
  submission_collaborator_failures_nonfatal Unit Unit Unit (.error "boom")
    (.error "boom") (.ok ()) ("a", "b") [some (), none] "boom"

/-- Helper: register_component never changes how many dict objects exist, so
a heap built only from register_component calls still has exactly its one
initial registry dict. -/
theorem registerAll_cells_length (α : Type) (regs : List (String × α)) :
    (registerAll α regs).cells.length = 1 := by
  suffices h : ∀ h0 : Heap α,
      (regs.foldl (fun h p => register_component h 0 p.1 p.2) h0).cells.length =
        h0.cells.length by
    simpa [registerAll, initHeap] using h (initHeap α)
  induction regs with
  | nil => intro h0; rfl
  | cons p ps ih =>
    intro h0
    rw [List.foldl_cons, ih]
    simp [register_component, heapSetDict]

/-- Helper: mutating the dict object at one reference leaves the dict at any
other reference untouched. -/
theorem applyOps_preserves_other (α : Type) (ops : List (DictOp α)) :
    ∀ (h : Heap α) (r q : Nat), q ≠ r →
      heapGetDict (applyOps h r ops) q = heapGetDict h q := by
  induction ops with
  | nil => intro h r q _; rfl
  | cons op ops ih =>
    intro h r q hq
    have hstep : heapGetDict (applyOp h r op) q = heapGetDict h q := by
      cases op <;>
        simp [applyOp, heapSetDict, heapGetDict, List.getD,
          List.getElem?_set_ne (Ne.symm hq)]
    calc heapGetDict (applyOps h r (op :: ops)) q
        = heapGetDict (applyOps (applyOp h r op) r ops) q := by
          simp [applyOps, List.foldl_cons]
      _ = heapGetDict (applyOp h r op) q := ih (applyOp h r op) r q hq
      _ = heapGetDict h q := hstep

/-- C8: get_component_registry returns a defensive copy: for every sequence
of register_component calls building the registry, and every sequence of
add, replace or remove mutations a caller applies to the mapping object it
was handed back, every later get_component lookup against the live registry
is unchanged. -/
theorem registry_copy_defensive (α : Type) (regs : List (String × α))
    (ops : List (DictOp α)) (name : String) :
    get_component
      (applyOps (get_component_registry (registerAll α regs) 0).1
        (get_component_registry (registerAll α regs) 0).2 ops) 0 name =
      get_component (registerAll α regs) 0 name := by
  have hlen : (registerAll α regs).cells.length = 1 := registerAll_cells_length α regs
  have hcopyRef : (get_component_registry (registerAll α regs) 0).2 = 1 := by
    simp [get_component_registry, hlen]
  have hne : (0 : Nat) ≠ (get_component_registry (registerAll α regs) 0).2 := by
    rw [hcopyRef]; decide
  have hdict : heapGetDict
      (applyOps (get_component_registry (registerAll α regs) 0).1
        (get_component_registry (registerAll α regs) 0).2 ops) 0 =
      heapGetDict (get_component_registry (registerAll α regs) 0).1 0 :=
    applyOps_preserves_other α ops _ _ 0 hne
  have hsame : heapGetDict (get_component_registry (registerAll α regs) 0).1 0 =
      heapGetDict (registerAll α regs) 0 := by
    simp [get_component_registry, heapGetDict, List.getD, List.getElem?_append, hlen,
      List.getElem_append]
  simp [get_component, hdict, hsame]

/-- C4: on every session-store snapshot, serialize (called without validate)
returns a structurally well-formed result: the uploads list is empty, the
payload is a dict of Count and Records with one record dict per counted
index, every record dict carries exactly the seventeen field keys in order,
and every field whose session key is absent serializes as the empty string
(Province/State aside, which is computed from the country).  The embedded
serialize is total, which is the model of the source never raising. -/
theorem cp_serialize_total_wellformed (store : Store) (ns instanceId : String)
    (cfg : Config) :
    ((cpSerialize store ns instanceId cfg).2 = []) ∧
    (∃ recs, (cpSerialize store ns instanceId cfg).1 =
        PyVal.pdict
          [("Count", PyVal.pint (getCount store (inst_key ns instanceId "count"))),
           ("Records", PyVal.plist recs)] ∧
      recs.length = (getCount store (inst_key ns instanceId "count")).toNat ∧
      ∀ r ∈ recs, ∃ kvs, r = PyVal.pdict kvs ∧ kvs.map Prod.fst = cpFieldKeys) ∧
    (∀ (i : Nat) (fieldKey sfx : String), (fieldKey, sfx) ∈ cpDirectFields →
      store (inst_key ns instanceId (sfx ++ toString i)) = none →
      lookupKey (cpSerializePerson store ns instanceId i) fieldKey =
        some (PyVal.pstr "")) := by
  refine ⟨rfl, ⟨_, rfl, by simp [cpSerialize], ?_⟩, ?_⟩
  · intro r hr
    simp only [cpSerialize, List.mem_map] at hr
    obtain ⟨i, _, rfl⟩ := hr
    exact ⟨_, rfl, rfl⟩
  · intro i fieldKey sfx hmem hnone
    fin_cases hmem <;> simp_all [cpSerializePerson, lookupKey, getD]

theorem cp_serialize_total_wellformed_witness :
    lookupKey (cpSerializePerson emptyStore "f" "cp" 0) "First Name" =
      some (PyVal.pstr "") :=
  (cp_serialize_total_wellformed emptyStore "f" "cp" {}).2.2 0 "First Name"
    "first_name_" (by decide) rfl

/-- C6: Province/State is country-conditional.  Serialize emits the sentinel
"Other" for every record whose Address Country value differs from
"South Africa", whatever the session store holds under the province key (the
payload being built record-wise from cpSerializePerson); and validate emits
its missing-province error exactly for records whose stripped Address
Country is "South Africa" with an empty stripped province, as the two
concrete validate runs instantiate. -/
theorem cp_province_country_conditional :
    (∀ (store : Store) (ns instanceId : String) (cfg : Config),
      (cpSerialize store ns instanceId cfg).1 =
        PyVal.pdict
          [("Count", PyVal.pint (getCount store (inst_key ns instanceId "count"))),
           ("Records", PyVal.plist
             ((List.range (getCount store (inst_key ns instanceId "count")).toNat).map
               (fun i => PyVal.pdict (cpSerializePerson store ns instanceId i))))]) ∧
    (∀ (store : Store) (ns instanceId : String) (i : Nat),
      pyEqStr (getD store (inst_key ns instanceId ("address_country_" ++ toString i))
          (.pstr "")) "South Africa" = false →
      lookupKey (cpSerializePerson store ns instanceId i) "Province/State" =
        some (PyVal.pstr "Other")) ∧
    (∀ (store : Store) (ns instanceId tag : String) (i : Nat),
      cpProvinceErrs store ns instanceId tag i ≠ [] ↔
        (getStrStrip store (inst_key ns instanceId ("address_country_" ++ toString i)) =
            "South Africa" ∧
         getStrStrip store (inst_key ns instanceId ("province_" ++ toString i)) = "")) ∧
    (cpValidate false cpMinDate (cpTestStore "South Africa" "" "1234") "f" "cp" {} =
      ["[Controlling Person #1] Province is required for South Africa."]) ∧
    (cpValidate false cpMinDate (cpTestStore "Kenya" "" "1234") "f" "cp" {} = []) := by
  refine ⟨fun store ns instanceId cfg => rfl, ?_, ?_, by decide, by decide⟩
  · intro store ns instanceId i h
    simp [cpSerializePerson, lookupKey, h]
  · intro store ns instanceId tag i
    simp only [cpProvinceErrs]
    split_ifs with h1 h2 <;>
      simp_all [beq_iff_eq]

theorem cp_province_country_conditional_witness :
    lookupKey (cpSerializePerson (cpTestStore "Kenya" "Gauteng" "1234") "f" "cp" 0)
      "Province/State" = some (PyVal.pstr "Other") :=
  cp_province_country_conditional.2.1 (cpTestStore "Kenya" "Gauteng" "1234") "f" "cp" 0
    (by decide)

/-- C2: country-conditional postal-code rules, applied record-wise.  For
South Africa a non-empty code passes _postal_ok exactly when it is 4 digits;
for any other country every string of length 1 to 10 passes; within a
record, an empty stripped postal code yields exactly the single required
error, and a failing non-empty code under South Africa yields exactly the
single 4-digits error while a passing code yields none; the four spec test
vectors run through the full validate confirm the counts. -/
theorem cp_postal_rules :
    (∀ code : String, code ≠ "" →
      (_postal_ok code "South Africa" = true ↔
        code.length = 4 ∧ ∀ c ∈ code.data, c.isDigit = true)) ∧
    (∀ code country : String, code ≠ "" → code.length ≤ 10 →
      pyStrip country ≠ "South Africa" → _postal_ok code country = true) ∧
    (∀ (store : Store) (ns instanceId tag : String) (i : Nat),
      getStrStrip store (inst_key ns instanceId ("postal_code_" ++ toString i)) = "" →
      cpPostalErrs store ns instanceId tag i = [tag ++ " Postal Code is required."]) ∧
    (∀ (store : Store) (ns instanceId tag : String) (i : Nat),
      getStrStrip store (inst_key ns instanceId ("address_country_" ++ toString i)) =
        "South Africa" →
      getStrStrip store (inst_key ns instanceId ("postal_code_" ++ toString i)) ≠ "" →
      _postal_ok (getStrStrip store (inst_key ns instanceId ("postal_code_" ++ toString i)))
        "South Africa" = false →
      cpPostalErrs store ns instanceId tag i =
        [tag ++ " Postal Code must be exactly 4 digits for South Africa."]) ∧
    (∀ (store : Store) (ns instanceId tag : String) (i : Nat),
      getStrStrip store (inst_key ns instanceId ("postal_code_" ++ toString i)) ≠ "" →
      _postal_ok (getStrStrip store (inst_key ns instanceId ("postal_code_" ++ toString i)))
        (getStrStrip store (inst_key ns instanceId ("address_country_" ++ toString i))) =
        true →
      cpPostalErrs store ns instanceId tag i = []) ∧
    (cpValidate false cpMinDate (cpTestStore "South Africa" "Gauteng" "1234") "f" "cp" {} =
      []) ∧
    (cpValidate false cpMinDate (cpTestStore "South Africa" "Gauteng" "12a") "f" "cp" {} =
      ["[Controlling Person #1] Postal Code must be exactly 4 digits for South Africa."]) ∧
    ((cpValidate false cpMinDate (cpTestStore "South Africa" "Gauteng" "12a") "f" "cp"
        {}).countP (fun e => mentions "4 digits" e) = 1) ∧
    (cpValidate false cpMinDate (cpTestStore "Kenya" "" "00100") "f" "cp" {} = []) ∧
    (cpValidate false cpMinDate (cpTestStore "Kenya" "" "") "f" "cp" {} =
      ["[Controlling Person #1] Postal Code is required."]) ∧
    ((cpValidate false cpMinDate (cpTestStore "Kenya" "" "") "f" "cp" {}).countP
      (fun e => mentions "Postal Code is required" e) = 1) := by
  refine ⟨?_, ?_, ?_, ?_, ?_, by decide, by decide, by decide, by decide, by decide,
    by decide⟩
  · intro code _
    have hsa : (pyStrip "South Africa" == "South Africa") = true := by decide
    simp [_postal_ok, hsa, List.all_eq_true]
  · intro code country h1 h2 h3
    simp [_postal_ok, h1, h2, h3]
  · intro store ns instanceId tag i h
    simp [cpPostalErrs, h]
  · intro store ns instanceId tag i h1 h2 h3
    simp [cpPostalErrs, h1, h2, h3]
  · intro store ns instanceId tag i h1 h2
    simp [cpPostalErrs, h1, h2]

theorem cp_postal_rules_witness :
    _postal_ok "1234" "South Africa" = true :=
  (cp_postal_rules.1 "1234" (by decide)).mpr (by decide)

/-- C5 counterexample: a non-repeater section (its Records key holds a
non-list) whose single field is literally named Records yields zero data
rows, where the claim that every field of a non-repeater section yields one
row demands one. -/
theorem csv_records_field_counterexample :
    flattenData [("S", PyVal.pdict [("Records", PyVal.pstr "x")])] = [] ∧
    makeCsv [("S", PyVal.pdict [("Records", PyVal.pstr "x")])] =
      "Section,Record #,Field,Value\n" :=
  ⟨rfl, rfl⟩

/-- C5 amended: every field of a non-repeater section other than a field
literally named Records yields one row with record number 1 (in field
order); a repeater section with zero records yields exactly the single
Count marker row; the mixed payload with one one-field plain section and a
two-record repeater of k fields each flattens to 1 + 2k data rows, and its
CSV text for k = 3 has exactly one header line plus that many data lines. -/
theorem csv_flatten_shape_amended :
    (∀ (title : String) (kvs : List (String × PyVal)),
      (∀ l, lookupKey kvs "Records" ≠ some (PyVal.plist l)) →
      flattenSection title (PyVal.pdict kvs) =
        (kvs.filter (fun kv => !(kv.1 == "Records"))).map
          (fun kv => ⟨title, 1, kv.1, PyVal.pstr (cellStr kv.2)⟩)) ∧
    (∀ (title : String) (kvs : List (String × PyVal)),
      lookupKey kvs "Records" = some (PyVal.plist []) →
      flattenSection title (PyVal.pdict kvs) = [⟨title, 0, "Count", PyVal.pint 0⟩]) ∧
    (∀ k : Nat, (flattenData (mkCsvPayload k)).length = 1 + 2 * k) ∧
    ((makeCsv (mkCsvPayload 3)).data.count '\n' = 1 + (1 + 2 * 3)) := by
  refine ⟨?_, ?_, ?_, by decide⟩
  · intro title kvs h
    cases hrec : lookupKey kvs "Records" with
    | none => simp [flattenSection, hrec]
    | some v =>
      cases v with
      | plist l => exact absurd hrec (h l)
      | pstr s => simp [flattenSection, hrec]
      | pint n => simp [flattenSection, hrec]
      | pdate y m d => simp [flattenSection, hrec]
      | pnone => simp [flattenSection, hrec]
      | pdict kvs2 => simp [flattenSection, hrec]
  · intro title kvs h
    simp [flattenSection, h]
  · intro k
    simp [flattenData, mkCsvPayload, flattenSection, lookupKey, mkCsvRecord,
      List.enum, List.enumFrom, Function.comp]
    ring

theorem csv_flatten_shape_amended_witness :
    flattenSection "Entity Details" (PyVal.pdict [("Entity Name", PyVal.pstr "Acme")]) =
      (([("Entity Name", PyVal.pstr "Acme")] : List (String × PyVal)).filter
          (fun kv => !(kv.1 == "Records"))).map
        (fun kv => ⟨"Entity Details", 1, kv.1, PyVal.pstr (cellStr kv.2)⟩) :=
  csv_flatten_shape_amended.1 "Entity Details" [("Entity Name", PyVal.pstr "Acme")]
    (fun _ h => nomatch h)

/-- Helper: every character that subRunsAux emits is either the replacement
character or an input character outside the replaced class. -/
theorem mem_subRunsAux (p : Char → Bool) (rep : Char) :
    ∀ (l : List Char) (b : Bool) (c : Char), c ∈ subRunsAux p rep b l →
      c = rep ∨ (c ∈ l ∧ p c = false) := by
  intro l
  induction l with
  | nil => intro b c h; simp [subRunsAux] at h
  | cons d ds ih =>
    intro b c h
    by_cases hd : p d = true
    · cases b with
      | true =>
        simp only [subRunsAux, hd, if_true] at h
        rcases ih true c h with h1 | ⟨h2, h3⟩
        · exact Or.inl h1
        · exact Or.inr ⟨List.mem_cons_of_mem d h2, h3⟩
      | false =>
        simp only [subRunsAux, hd, if_true] at h
        rcases List.mem_cons.mp h with rfl | h1
        · exact Or.inl rfl
        · rcases ih true c h1 with h2 | ⟨h3, h4⟩
          · exact Or.inl h2
          · exact Or.inr ⟨List.mem_cons_of_mem d h3, h4⟩
    · rw [Bool.not_eq_true] at hd
      simp only [subRunsAux, hd, Bool.false_eq_true, if_false] at h
      rcases List.mem_cons.mp h with rfl | h1
      · exact Or.inr ⟨List.mem_cons_self c ds, hd⟩
      · rcases ih false c h1 with h2 | ⟨h3, h4⟩
        · exact Or.inl h2
        · exact Or.inr ⟨List.mem_cons_of_mem d h3, h4⟩

/-- No two adjacent underscores. -/
def NoAdjUnderscore (l : List Char) : Prop :=
  List.Chain' (fun a b => ¬(a = '_' ∧ b = '_')) l

/-- Helper: replacing runs of underscores by one underscore leaves no two
adjacent underscores, whatever the starting run state; in the in-run state
the output never begins with an underscore. -/
theorem subRunsAux_underscore_chain :
    ∀ l : List Char,
      NoAdjUnderscore (subRunsAux (fun c => c == '_') '_' false l) ∧
      NoAdjUnderscore (subRunsAux (fun c => c == '_') '_' true l) ∧
      ∀ c, (subRunsAux (fun c => c == '_') '_' true l).head? = some c → ¬c = '_' := by
  intro l
  induction l with
  | nil =>
    refine ⟨List.chain'_nil, List.chain'_nil, ?_⟩
    intro c h
    simp [subRunsAux] at h
  | cons d ds ih =>
    obtain ⟨ihf, iht, ihh⟩ := ih
    by_cases hd : (d == '_') = true
    · have hd' : d = '_' := by simpa using hd
      refine ⟨?_, ?_, ?_⟩
      · simp only [subRunsAux, hd, if_true]
        refine List.Chain'.cons' iht ?_
        intro y hy
        rintro ⟨-, hy'⟩
        exact ihh y (Option.mem_def.mp hy) hy'
      · simpa only [subRunsAux, hd, if_true] using iht
      · intro c h
        simp only [subRunsAux, hd, if_true] at h
        exact ihh c h
    · rw [Bool.not_eq_true] at hd
      have hd' : ¬d = '_' := by simpa using hd
      have hcons : NoAdjUnderscore (d :: subRunsAux (fun c => c == '_') '_' false ds) := by
        refine List.Chain'.cons' ihf ?_
        intro y _
        rintro ⟨hdd, -⟩
        exact hd' hdd
      refine ⟨?_, ?_, ?_⟩
      · simpa only [subRunsAux, hd, Bool.false_eq_true, if_false] using hcons
      · simpa only [subRunsAux, hd, Bool.false_eq_true, if_false] using hcons
      · intro c h
        simp only [subRunsAux, hd, Bool.false_eq_true, if_false, List.head?_cons,
          Option.some.injEq] at h
        subst h
        exact hd'

/-- Helper: stripping a character from both ends keeps only characters of
the input. -/
theorem mem_stripChar (ch c : Char) (l : List Char) (h : c ∈ stripChar ch l) :
    c ∈ l := by
  unfold stripChar at h
  rw [List.mem_reverse] at h
  have h2 := (List.dropWhile_suffix _).subset h
  rw [List.mem_reverse] at h2
  exact (List.dropWhile_suffix _).subset h2

/-- Helper: stripping a character from both ends preserves the absence of
adjacent underscores (the relation is symmetric, and both ends are reached
through suffixes of reversals). -/
theorem noAdjUnderscore_stripChar (ch : Char) (l : List Char)
    (h : NoAdjUnderscore l) : NoAdjUnderscore (stripChar ch l) := by
  have hsymm : ∀ a b : Char,
      (flip (fun a b : Char => ¬(a = '_' ∧ b = '_'))) a b ↔ ¬(a = '_' ∧ b = '_') := by
    intro a b
    constructor
    · intro hab ⟨h1, h2⟩
      exact hab ⟨h2, h1⟩
    · intro hab ⟨h1, h2⟩
      exact hab ⟨h2, h1⟩
  have h1 : NoAdjUnderscore (l.dropWhile (fun d => d == ch)) :=
    List.Chain'.suffix h (List.dropWhile_suffix _)
  have h2 : NoAdjUnderscore ((l.dropWhile (fun d => d == ch)).reverse) :=
    List.chain'_reverse.mpr ((List.Chain'.iff hsymm).mpr h1)
  have h3 : NoAdjUnderscore
      (((l.dropWhile (fun d => d == ch)).reverse).dropWhile (fun d => d == ch)) :=
    List.Chain'.suffix h2 (List.dropWhile_suffix _)
  exact List.chain'_reverse.mpr ((List.Chain'.iff hsymm).mpr h3)

/-- Helper: appending to a non-empty string stays non-empty. -/
theorem append_ne_empty_left (s t : String) (h : s ≠ "") : s ++ t ≠ "" := by
  intro hc
  apply h
  cases s with
  | mk data =>
    cases t with
    | mk data2 =>
      simp only [String.ext_iff] at hc ⊢
      have := (List.append_eq_nil.mp hc).1
      simpa using this

/-- Helper: the direct unfolding of _sanitize_filename_part on a non-empty
input. -/
theorem sanitize_eq (text : String) (h : (text == "") = false) :
    _sanitize_filename_part text =
      (stripChar '_'
        (subRuns (fun c => c == '_') '_'
          (subRuns isWsOrHyphen '_' (text.data.filter keepChar)))).asString := by
  simp only [_sanitize_filename_part, h, Bool.false_eq_true, if_false]

/-- Helper: every character of a sanitized part is an ASCII letter, an
ASCII digit or an underscore. -/
theorem sanitize_alphabet (text : String) :
    ∀ c ∈ (_sanitize_filename_part text).data,
      c.isAlpha = true ∨ c.isDigit = true ∨ c = '_' := by
  intro c hc
  by_cases he : (text == "") = true
  · rw [_sanitize_filename_part, if_pos he] at hc
    simp at hc
  · rw [Bool.not_eq_true] at he
    rw [sanitize_eq text he] at hc
    have h3 : c ∈ stripChar '_'
        (subRuns (fun c => c == '_') '_'
          (subRuns isWsOrHyphen '_' (text.data.filter keepChar))) := hc
    have h4 := mem_stripChar '_' c _ h3
    rcases mem_subRunsAux (fun c => c == '_') '_' _ false c h4 with rfl | ⟨h5, _⟩
    · exact Or.inr (Or.inr rfl)
    · rcases mem_subRunsAux isWsOrHyphen '_' _ false c h5 with rfl | ⟨h6, hq⟩
      · exact Or.inr (Or.inr rfl)
      · have hk := (List.mem_filter.mp h6).2
        simp only [keepChar, Bool.or_eq_true] at hk
        simp only [isWsOrHyphen, Bool.or_eq_true, Bool.not_eq_true] at hq
        rcases hk with (((ha | hb) | hu) | hw) | hh
        · exact Or.inl ha
        · exact Or.inr (Or.inl hb)
        · exact Or.inr (Or.inr (by simpa using hu))
        · rw [Bool.or_eq_false_iff] at hq
          rw [hq.1] at hw
          exact absurd hw (by simp)
        · rw [Bool.or_eq_false_iff] at hq
          rw [hh] at hq
          exact absurd hq.2 (by simp)

/-- Helper: a sanitized part never has two adjacent underscores. -/
theorem sanitize_noAdjUnderscore (text : String) :
    NoAdjUnderscore (_sanitize_filename_part text).data := by
  by_cases he : (text == "") = true
  · rw [_sanitize_filename_part, if_pos he]
    exact List.chain'_nil
  · rw [Bool.not_eq_true] at he
    rw [sanitize_eq text he]
    exact noAdjUnderscore_stripChar '_' _ (subRunsAux_underscore_chain _).1

/-- Helper: the truncation step never leaves more than 200 characters. -/
theorem truncate_le (s : String) :
    (if s.length > 200 then (rstripUnderscore (s.data.take 200)).asString
     else s).length ≤ 200 := by
  split
  · have h1 : ((rstripUnderscore (s.data.take 200)).asString).length =
        (rstripUnderscore (s.data.take 200)).length := rfl
    rw [h1]
    have h2 : (rstripUnderscore (s.data.take 200)).length ≤ (s.data.take 200).length := by
      unfold rstripUnderscore
      simp only [List.length_reverse]
      calc (List.dropWhile (fun c => c == '_') (s.data.take 200).reverse).length
          ≤ (s.data.take 200).reverse.length := (List.dropWhile_sublist _).length_le
        _ = (s.data.take 200).length := List.length_reverse _
    have h3 : (s.data.take 200).length ≤ 200 := by
      simp [List.length_take]
    omega
  · omega

/-- C7: the attachment filename contract.  The spec example produces its
expected filename; every sanitized component uses only the alphabet of
letters, digits and underscore, with no two adjacent underscores; the
generated name is always a base of at most 200 characters followed by a dot
and the extension; all components empty fall back to the Document base; a
dotless original name falls back to the bin extension; and when all four
components sanitize non-trivially and fit, the base is their underscore
join in order. -/
theorem attachment_filename_contract :
    (generate_filename "Acme Corp_Company" "Company Directors" "John_Smith_Director_1"
        "SA_ID_Document" "scan.pdf" =
      "Acme_Corp_Company_Company_Directors_John_Smith_Director_1_SA_ID_Document.pdf") ∧
    (∀ text : String, ∀ c ∈ (_sanitize_filename_part text).data,
      c.isAlpha = true ∨ c.isDigit = true ∨ c = '_') ∧
    (∀ text : String, NoAdjUnderscore (_sanitize_filename_part text).data) ∧
    (∀ ec st pi dt name : String, ∃ base : String,
      generate_filename ec st pi dt name = base ++ "." ++ extOf name ∧
      base.length ≤ 200) ∧
    (∀ name : String,
      generate_filename "" "" "" "" name = "Document" ++ "." ++ extOf name) ∧
    (∀ name : String, name.data.contains '.' = false → extOf name = "bin") ∧
    (∀ ec st pi dt name : String,
      (ec == "") = false → (st == "") = false → (pi == "") = false →
      (dt == "") = false →
      (_sanitize_filename_part ec == "") = false →
      (_sanitize_filename_part st == "") = false →
      (_sanitize_filename_part pi == "") = false →
      (_sanitize_filename_part dt == "") = false →
      (_sanitize_filename_part ec ++ "_" ++ _sanitize_filename_part st ++ "_" ++
        _sanitize_filename_part pi ++ "_" ++ _sanitize_filename_part dt).length ≤ 200 →
      generate_filename ec st pi dt name =
        _sanitize_filename_part ec ++ "_" ++ _sanitize_filename_part st ++ "_" ++
        _sanitize_filename_part pi ++ "_" ++ _sanitize_filename_part dt ++ "." ++
          extOf name) := by
  refine ⟨rfl, sanitize_alphabet, sanitize_noAdjUnderscore, ?_, fun name => rfl, ?_, ?_⟩
  · intro ec st pi dt name
    exact ⟨_, rfl, truncate_le _⟩
  · intro name h
    unfold extOf
    rw [h]
    rfl
  · intro ec st pi dt name h1 h2 h3 h4 h5 h6 h7 h8 hlen
    have hj : pyJoin "_" [_sanitize_filename_part ec, _sanitize_filename_part st,
        _sanitize_filename_part pi, _sanitize_filename_part dt] =
        _sanitize_filename_part ec ++ "_" ++ _sanitize_filename_part st ++ "_" ++
        _sanitize_filename_part pi ++ "_" ++ _sanitize_filename_part dt := by
      simp [pyJoin, String.append_assoc]
    have hs1 : _sanitize_filename_part ec ≠ "" := by
      intro hc
      rw [hc] at h5
      simp at h5
    have hne : (_sanitize_filename_part ec ++ "_" ++ _sanitize_filename_part st ++ "_" ++
        _sanitize_filename_part pi ++ "_" ++ _sanitize_filename_part dt) ≠ "" := by
      rw [String.append_assoc, String.append_assoc, String.append_assoc,
        String.append_assoc, String.append_assoc]
      exact append_ne_empty_left _ _ hs1
    unfold generate_filename
    simp only [h1, h2, h3, h4, Bool.not_false, if_true, List.singleton_append,
      List.cons_append, List.nil_append, List.filter_cons, h5, h6, h7, h8,
      List.filter_nil]
    rw [hj]
    have hneb : ((_sanitize_filename_part ec ++ "_" ++ _sanitize_filename_part st ++ "_" ++
        _sanitize_filename_part pi ++ "_" ++ _sanitize_filename_part dt) == "") = false := by
      simpa using hne
    simp only [hneb, Bool.false_eq_true, if_false]
    rw [if_neg (by omega)]

theorem attachment_filename_contract_witness :
    extOf "README" = "bin" :=
  attachment_filename_contract.2.2.2.2.2.1 "README" (by decide)
